import Mathlib

/-!
Shallow embedding of the OAuth 2.0 authorization server
(`src/config.ts`, `src/tokens.ts`, `src/app.ts`).

Modelling conventions:
- Possibly-undefined JS string values (query/body fields, JWT claims) are
  `Option String`; `none` plays the role of `undefined` / an absent JSON key,
  and JS strict inequality `a !== b` is `Option.some`-aware inequality
  (`undefined !== undefined` is false, `undefined !== "x"` is true).
- Time is an integer second count `now : Nat`, matching the second
  granularity of the `iat` / `exp` JWT claims that `jose` sets.
- A compact JWS produced by this server is the structure `Jwt`; its HMAC-SHA256
  tag is modelled abstractly as the tuple of the signing key and the signed
  content, reflecting that HS256 is a deterministic function of exactly these
  inputs and that verification recomputes the tag and compares.
- `jose`'s `jwtVerify` throws on a missing or undecodable input and on a bad
  tag or an expiry at or before the current time; the model returns `none` in
  all of these cases and the embedded payload on success.
-/

namespace OAuth

/-- Configuration from `config.ts`: the single registered client id, the single
redirect URI, and the JWT signing secret. -/
structure Config where
  clientId : String
  redirectUri : String
  secret : String
  deriving DecidableEq, Repr

/-- JWT claims payload as minted by this server: authorization codes carry both
`clientId` and `redirectUri`; access and refresh tokens carry only `clientId`.
A field is `none` when the key is absent from the JSON payload (note
`JSON.stringify` drops keys whose value is `undefined`). -/
structure Claims where
  clientId : Option String
  redirectUri : Option String
  deriving DecidableEq, Repr

/-- The HMAC-SHA256 tag over the protected header and payload, modelled as the
signing key paired with the signed content. -/
def hmacTag (secret : String) (claims : Claims) (iat exp : Nat) :
    String × Claims × Nat × Nat :=
  (secret, claims, iat, exp)

/-- A structurally well-formed compact JWS: payload claims, issued-at and
expiry timestamps, and the integrity tag. -/
structure Jwt where
  claims : Claims
  iat : Nat
  exp : Nat
  tag : String × Claims × Nat × Nat
  deriving DecidableEq, Repr

/-- `new SignJWT(claims).setProtectedHeader({alg:'HS256'})
.setExpirationTime(dur).setIssuedAt().sign(secret)` evaluated at integer time
`now`: `iat = now`, `exp = now + durSeconds`. -/
def signJwt (secret : String) (claims : Claims) (now durSeconds : Nat) : Jwt :=
  { claims := claims
    iat := now
    exp := now + durSeconds
    tag := hmacTag secret claims now (now + durSeconds) }

/-- The value of a token-bearing body field as `jwtVerify` receives it: absent
(`undefined`), a string that does not decode as a JWS, or a well-formed
token. -/
inductive TokenInput where
  | absent
  | malformed (s : String)
  | wellFormed (t : Jwt)
  deriving DecidableEq, Repr

/-- `jose`'s `jwtVerify(input, secret)` at time `now`: succeeds with the
embedded claims iff the input is a well-formed JWS whose tag recomputes under
`secret` and whose expiry is strictly in the future; otherwise it throws,
modelled as `none`. -/
def jwtVerify (secret : String) (inp : TokenInput) (now : Nat) : Option Claims :=
  match inp with
  | .wellFormed t =>
      if t.tag = hmacTag secret t.claims t.iat t.exp ∧ now < t.exp then
        some t.claims
      else
        none
  | _ => none

/-- `ACCESS_TOKEN_EXPIRY = '1h'` from `config.ts`. -/
def ACCESS_TOKEN_EXPIRY_SECONDS : Nat := 3600

/-- `REFRESH_TOKEN_EXPIRY = '30d'` from `config.ts`. -/
def REFRESH_TOKEN_EXPIRY_SECONDS : Nat := 30 * 24 * 3600

/-- `AUTH_CODE_EXPIRY = '5m'` from `app.ts`. -/
def AUTH_CODE_EXPIRY_SECONDS : Nat := 5 * 60

/-- `generateAccessToken(clientId)` from `tokens.ts`: signs `{ clientId }` with
a one-hour expiry. The argument is `Option String` because the handler passes
the request body's `client_id` through unchecked for the refresh grant. -/
def generateAccessToken (secret : String) (clientId : Option String) (now : Nat) : Jwt :=
  signJwt secret { clientId := clientId, redirectUri := none } now
    ACCESS_TOKEN_EXPIRY_SECONDS

/-- `generateRefreshToken(clientId)` from `tokens.ts`: signs `{ clientId }`
with a thirty-day expiry. -/
def generateRefreshToken (secret : String) (clientId : Option String) (now : Nat) : Jwt :=
  signJwt secret { clientId := clientId, redirectUri := none } now
    REFRESH_TOKEN_EXPIRY_SECONDS

/-- Query parameters of `GET /api/oauth/authorize`. -/
structure AuthorizeReq where
  response_type : Option String
  client_id : Option String
  redirect_uri : Option String
  state : Option String
  deriving DecidableEq, Repr

/-- A 302 redirect, decomposed into the base URI and the decoded values of its
`code` and (optional) `state` query parameters. -/
structure Redirect where
  uri : String
  code : Jwt
  state : Option String
  deriving DecidableEq, Repr

/-- Outcome of the authorize handler: `res.status(400).send(msg)` or
`res.redirect(302, location)`. -/
inductive AuthorizeRes where
  | badRequest (msg : String)
  | found (r : Redirect)
  deriving DecidableEq, Repr

/-- HTTP status code of an authorize response. -/
def AuthorizeRes.status : AuthorizeRes → Nat
  | .badRequest _ => 400
  | .found _ => 302

/-- JS truthiness of a possibly-undefined string, as used by `if (state)`:
`undefined` and the empty string are falsy. -/
def jsTruthy : Option String → Bool
  | none => false
  | some s => s ≠ ""

/-- The `GET /api/oauth/authorize` handler from `app.ts`: validates
`response_type`, then `client_id`, then `redirect_uri` (first failure wins),
then mints a five-minute authorization code over
`{ clientId: CLIENT_ID, redirectUri: REDIRECT_URI }` and redirects to the
request's `redirect_uri` with the code and, when `state` is truthy, the
echoed `state`. -/
def authorize (cfg : Config) (now : Nat) (req : AuthorizeReq) : AuthorizeRes :=
  if req.response_type ≠ some "code" then
    .badRequest "Unsupported response_type. Expected \"code\"."
  else if req.client_id ≠ some cfg.clientId then
    .badRequest "Invalid client_id."
  else
    match req.redirect_uri with
    | none => .badRequest "Invalid redirect_uri."
    | some ru =>
        if ru ≠ cfg.redirectUri then
          .badRequest "Invalid redirect_uri."
        else
          let code := signJwt cfg.secret
            { clientId := some cfg.clientId, redirectUri := some cfg.redirectUri }
            now AUTH_CODE_EXPIRY_SECONDS
          .found { uri := ru
                   code := code
                   state := if jsTruthy req.state then req.state else none }

/-- Body of `POST /api/oauth/token`. -/
structure TokenReq where
  grant_type : Option String
  code : TokenInput
  client_id : Option String
  redirect_uri : Option String
  refresh_token : TokenInput
  deriving DecidableEq, Repr

/-- The JSON body of a successful token response. -/
structure TokenSuccess where
  access_token : Jwt
  token_type : String
  expires_in : Nat
  refresh_token : Jwt
  deriving DecidableEq, Repr

/-- Outcome of the token handler: `res.status(200).json({...})` or
`res.status(400).json({ error })`. -/
inductive TokenRes where
  | ok (body : TokenSuccess)
  | err (error : String)
  deriving DecidableEq, Repr

/-- HTTP status code of a token response. -/
def TokenRes.status : TokenRes → Nat
  | .ok _ => 200
  | .err _ => 400

/-- The `POST /api/oauth/token` handler from `app.ts`. The
`authorization_code` branch rejects with `invalid_client` when the verified
payload's `clientId` OR `redirectUri` mismatches the request; the
`refresh_token` branch rejects only when BOTH mismatch (the source's `&&`),
and both branches mint fresh tokens for the request body's `client_id`. -/
def token (cfg : Config) (now : Nat) (req : TokenReq) : TokenRes :=
  if req.grant_type = some "authorization_code" then
    match jwtVerify cfg.secret req.code now with
    | none => .err "invalid_code"
    | some payload =>
        if payload.clientId ≠ req.client_id ∨ payload.redirectUri ≠ req.redirect_uri then
          .err "invalid_client"
        else
          .ok { access_token := generateAccessToken cfg.secret req.client_id now
                token_type := "bearer"
                expires_in := 3600
                refresh_token := generateRefreshToken cfg.secret req.client_id now }
  else if req.grant_type = some "refresh_token" then
    match jwtVerify cfg.secret req.refresh_token now with
    | none => .err "invalid_refresh_token"
    | some payload =>
        if payload.clientId ≠ req.client_id ∧ payload.redirectUri ≠ req.redirect_uri then
          .err "invalid_client"
        else
          .ok { access_token := generateAccessToken cfg.secret req.client_id now
                token_type := "bearer"
                expires_in := 3600
                refresh_token := generateRefreshToken cfg.secret req.client_id now }
  else
    .err "unsupported_grant_type"

/-- The default configuration from `config.ts` and the repository's `.env`
example. -/
def cfg0 : Config :=
  { clientId := "upfirst"
    redirectUri := "http://localhost:8081/process"
    secret := "my-super-secret-key" }

/-- The `refresh_token` field of a token response, when it has one. -/
def refreshOf : TokenRes → Option Jwt
  | .ok b => some b.refresh_token
  | .err _ => none

/-- The `state` redirect parameter of an authorize response, when the
response is a redirect. -/
def redirectStateOf : AuthorizeRes → Option (Option String)
  | .found r => some r.state
  | .badRequest _ => none

/-- Unfolding of the token handler on the `authorization_code` branch. -/
lemma token_authcode_eq (cfg : Config) (now : Nat) (req : TokenReq)
    (hg : req.grant_type = some "authorization_code") :
    token cfg now req =
      match jwtVerify cfg.secret req.code now with
      | none => .err "invalid_code"
      | some payload =>
          if payload.clientId ≠ req.client_id ∨ payload.redirectUri ≠ req.redirect_uri then
            .err "invalid_client"
          else
            .ok { access_token := generateAccessToken cfg.secret req.client_id now
                  token_type := "bearer"
                  expires_in := 3600
                  refresh_token := generateRefreshToken cfg.secret req.client_id now } := by
  simp [token, hg]

/-- Unfolding of the token handler on the `refresh_token` branch. -/
lemma token_refresh_eq (cfg : Config) (now : Nat) (req : TokenReq)
    (hg : req.grant_type = some "refresh_token") :
    token cfg now req =
      match jwtVerify cfg.secret req.refresh_token now with
      | none => .err "invalid_refresh_token"
      | some payload =>
          if payload.clientId ≠ req.client_id ∧ payload.redirectUri ≠ req.redirect_uri then
            .err "invalid_client"
          else
            .ok { access_token := generateAccessToken cfg.secret req.client_id now
                  token_type := "bearer"
                  expires_in := 3600
                  refresh_token := generateRefreshToken cfg.secret req.client_id now } := by
  have hg1 : ¬ req.grant_type = some "authorization_code" := by rw [hg]; decide
  simp [token, hg1, hg]

/-- Any successful token response carries the refresh token freshly minted at
the handling time for the request body's `client_id`. -/
lemma tokenOk_refresh (cfg : Config) (now : Nat) (req : TokenReq) (b : TokenSuccess)
    (hok : token cfg now req = .ok b) :
    b.refresh_token = generateRefreshToken cfg.secret req.client_id now := by
  unfold token at hok
  split_ifs at hok with h1 h2
  · cases hv : jwtVerify cfg.secret req.code now with
    | none => rw [hv] at hok; simp at hok
    | some p =>
        rw [hv] at hok
        simp only [] at hok
        split_ifs at hok
        simp only [TokenRes.ok.injEq] at hok
        rw [← hok]
  · cases hv : jwtVerify cfg.secret req.refresh_token now with
    | none => rw [hv] at hok; simp at hok
    | some p =>
        rw [hv] at hok
        simp only [] at hok
        split_ifs at hok
        simp only [TokenRes.ok.injEq] at hok
        rw [← hok]

/-- Claim C2: Authorize validation proceeds in the fixed order
`response_type`, then `client_id`, then `redirect_uri`; the first failing
check determines the error, so a request failing an earlier check never
produces a later check's error. -/
theorem c2_authorize_check_order (cfg : Config) (now : Nat) (req : AuthorizeReq) :
    (req.response_type ≠ some "code" →
      authorize cfg now req = .badRequest "Unsupported response_type. Expected \"code\".") ∧
    (req.response_type = some "code" → req.client_id ≠ some cfg.clientId →
      authorize cfg now req = .badRequest "Invalid client_id.") ∧
    (req.response_type = some "code" → req.client_id = some cfg.clientId →
      req.redirect_uri ≠ some cfg.redirectUri →
      authorize cfg now req = .badRequest "Invalid redirect_uri.") := by
  refine ⟨fun h1 => ?_, fun h1 h2 => ?_, fun h1 h2 h3 => ?_⟩
  · simp [authorize, h1]
  · simp [authorize, h1, h2]
  · cases hru : req.redirect_uri with
    | none => simp [authorize, h1, h2, hru]
    | some ru =>
        have hne : ru ≠ cfg.redirectUri := fun he => h3 (by rw [hru, he])
        simp [authorize, h1, h2, hru, hne]

/-- Witness for C2: each of the three rejection behaviors exercised at a
concrete request. -/
theorem c2_authorize_check_order_witness :
    authorize cfg0 0
      { response_type := some "token", client_id := some "upfirst"
        redirect_uri := some "http://localhost:8081/process", state := none }
      = .badRequest "Unsupported response_type. Expected \"code\"." ∧
    authorize cfg0 0
      { response_type := some "code", client_id := some "invalid_client"
        redirect_uri := some "http://localhost:8081/process", state := none }
      = .badRequest "Invalid client_id." ∧
    authorize cfg0 0
      { response_type := some "code", client_id := some "upfirst"
        redirect_uri := some "http://bad-redirect.com", state := none }
      = .badRequest "Invalid redirect_uri." :=
  ⟨(c2_authorize_check_order cfg0 0 _).1 (by decide),
   (c2_authorize_check_order cfg0 0 _).2.1 rfl (by decide),
   (c2_authorize_check_order cfg0 0 _).2.2 rfl rfl (by decide)⟩

/-- Claim C3: a valid Authorize request produces a 302 redirect whose `code`
parameter verifies under the signing secret and decodes to the request's
`clientId` and `redirectUri`. -/
theorem c3_authorize_success_code_verifies (cfg : Config) (now : Nat) (req : AuthorizeReq)
    (h1 : req.response_type = some "code")
    (h2 : req.client_id = some cfg.clientId)
    (h3 : req.redirect_uri = some cfg.redirectUri) :
    ∃ r : Redirect,
      authorize cfg now req = .found r ∧
      (authorize cfg now req).status = 302 ∧
      jwtVerify cfg.secret (.wellFormed r.code) now =
        some { clientId := req.client_id, redirectUri := req.redirect_uri } := by
  refine ⟨{ uri := cfg.redirectUri
            code := signJwt cfg.secret
              { clientId := some cfg.clientId, redirectUri := some cfg.redirectUri }
              now AUTH_CODE_EXPIRY_SECONDS
            state := if jsTruthy req.state then req.state else none }, ?_, ?_, ?_⟩
  · simp [authorize, h1, h2, h3]
  · have : authorize cfg now req = .found
        { uri := cfg.redirectUri
          code := signJwt cfg.secret
            { clientId := some cfg.clientId, redirectUri := some cfg.redirectUri }
            now AUTH_CODE_EXPIRY_SECONDS
          state := if jsTruthy req.state then req.state else none } := by
      simp [authorize, h1, h2, h3]
    rw [this]; rfl
  · have hlt : now < now + AUTH_CODE_EXPIRY_SECONDS := by
      simp [AUTH_CODE_EXPIRY_SECONDS]
    simp [jwtVerify, signJwt, hmacTag, hlt, h2, h3]

/-- Witness for C3 at the spec's concrete scenario. -/
theorem c3_authorize_success_code_verifies_witness :
    ∃ r : Redirect,
      authorize cfg0 7
        { response_type := some "code", client_id := some "upfirst"
          redirect_uri := some "http://localhost:8081/process", state := some "xyz" }
        = .found r ∧
      (authorize cfg0 7
        { response_type := some "code", client_id := some "upfirst"
          redirect_uri := some "http://localhost:8081/process", state := some "xyz" }).status = 302 ∧
      jwtVerify cfg0.secret (.wellFormed r.code) 7 =
        some { clientId := some "upfirst", redirectUri := some "http://localhost:8081/process" } :=
  c3_authorize_success_code_verifies cfg0 7
    { response_type := some "code", client_id := some "upfirst"
      redirect_uri := some "http://localhost:8081/process", state := some "xyz" }
    rfl rfl rfl

/-- The Authorize request of the C4 counterexample: all three validation
parameters correct, and `state` supplied as the empty string. -/
def reqStateEmpty : AuthorizeReq :=
  { response_type := some "code"
    client_id := some "upfirst"
    redirect_uri := some "http://localhost:8081/process"
    state := some "" }

/-- Counterexample to claim C4 as stated: the request supplies the state
value `""`, the response is a successful redirect, yet the redirect carries
no `state` parameter (the source guards the echo with JS truthiness:
`if (state)`), so a supplied state value does not always appear. -/
theorem c4_state_echo_counterexample :
    reqStateEmpty.state = some "" ∧
    redirectStateOf (authorize cfg0 0 reqStateEmpty) = some none ∧
    redirectStateOf (authorize cfg0 0 reqStateEmpty) ≠ some (some "") :=
  ⟨rfl, rfl, by decide⟩

/-- Claim C4 (amended): on every successful Authorize request, a supplied
non-empty state value is echoed unchanged as the redirect's `state`
parameter; when state is omitted or supplied as the empty string, the
redirect carries no `state` parameter. -/
theorem c4_state_echo_amended (cfg : Config) (now : Nat) (req : AuthorizeReq) (r : Redirect)
    (h : authorize cfg now req = .found r) :
    (jsTruthy req.state = true → r.state = req.state) ∧
    (jsTruthy req.state = false → r.state = none) := by
  unfold authorize at h
  split_ifs at h with hA hB hC
  · cases hru : req.redirect_uri with
    | none => rw [hru] at h; simp at h
    | some ru =>
        rw [hru] at h
        simp only [] at h
        split_ifs at h
        simp only [AuthorizeRes.found.injEq] at h
        refine ⟨fun _ => ?_, fun hs => ?_⟩
        · rw [← h]
        · rw [hC] at hs; exact absurd hs (by decide)
  · cases hru : req.redirect_uri with
    | none => rw [hru] at h; simp at h
    | some ru =>
        rw [hru] at h
        simp only [] at h
        split_ifs at h
        simp only [AuthorizeRes.found.injEq] at h
        refine ⟨fun hs => ?_, fun _ => ?_⟩
        · exact absurd hs hC
        · rw [← h]

/-- Witness for the amended C4: a non-empty state is echoed unchanged. -/
theorem c4_state_echo_amended_witness :
    ({ uri := "http://localhost:8081/process"
       code := signJwt cfg0.secret
         { clientId := some "upfirst", redirectUri := some "http://localhost:8081/process" }
         0 AUTH_CODE_EXPIRY_SECONDS
       state := some "xyz" } : Redirect).state = some "xyz" :=
  (c4_state_echo_amended cfg0 0
    { response_type := some "code", client_id := some "upfirst"
      redirect_uri := some "http://localhost:8081/process", state := some "xyz" }
    _ rfl).1 rfl

/-- Claim C5: for the `authorization_code` grant, any verification failure of
the code (absent, malformed, tampered tag, or expired) yields the single error
`invalid_code` with status 400; a verified code whose embedded `clientId` or
`redirectUri` differs from the request yields `invalid_client` with status
400; and in every other case the grant succeeds, so these are the only
failure outcomes. -/
theorem c5_authcode_failure_taxonomy (cfg : Config) (now : Nat) (req : TokenReq)
    (hg : req.grant_type = some "authorization_code") :
    (jwtVerify cfg.secret req.code now = none →
      token cfg now req = .err "invalid_code" ∧ (token cfg now req).status = 400) ∧
    (∀ p : Claims, jwtVerify cfg.secret req.code now = some p →
      p.clientId ≠ req.client_id ∨ p.redirectUri ≠ req.redirect_uri →
      token cfg now req = .err "invalid_client" ∧ (token cfg now req).status = 400) ∧
    (∀ p : Claims, jwtVerify cfg.secret req.code now = some p →
      p.clientId = req.client_id → p.redirectUri = req.redirect_uri →
      ∃ b : TokenSuccess, token cfg now req = .ok b) := by
  refine ⟨fun hv => ?_, fun p hv hne => ?_, fun p hv hc hr => ?_⟩
  · rw [token_authcode_eq cfg now req hg, hv]
    exact ⟨rfl, rfl⟩
  · rw [token_authcode_eq cfg now req hg, hv]
    simp only []
    rw [if_pos hne]
    exact ⟨rfl, rfl⟩
  · rw [token_authcode_eq cfg now req hg, hv]
    simp only []
    rw [if_neg (by rw [hc, hr]; simp)]
    exact ⟨_, rfl⟩

/-- An authorization code minted by the authorize handler at time 0 for the
default configuration. -/
def authCode0 : Jwt :=
  signJwt cfg0.secret
    { clientId := some "upfirst", redirectUri := some "http://localhost:8081/process" }
    0 AUTH_CODE_EXPIRY_SECONDS

/-- An `authorization_code` exchange presenting an undecodable code string. -/
def codeReqBadCode : TokenReq :=
  { grant_type := some "authorization_code", code := .malformed "NON_EXISTENT_CODE"
    client_id := some "upfirst", redirect_uri := some "http://localhost:8081/process"
    refresh_token := .absent }

/-- An `authorization_code` exchange presenting a genuine code but the wrong
`client_id`. -/
def codeReqWrongClient : TokenReq :=
  { grant_type := some "authorization_code", code := .wellFormed authCode0
    client_id := some "someone-else", redirect_uri := some "http://localhost:8081/process"
    refresh_token := .absent }

/-- A fully matching `authorization_code` exchange. -/
def codeReqOk : TokenReq :=
  { grant_type := some "authorization_code", code := .wellFormed authCode0
    client_id := some "upfirst", redirect_uri := some "http://localhost:8081/process"
    refresh_token := .absent }

/-- Witness for C5: the three outcomes at concrete requests: a malformed
code string rejects with `invalid_code`; a genuine code presented with the
wrong `client_id` rejects with `invalid_client`; a matching exchange
succeeds. -/
theorem c5_authcode_failure_taxonomy_witness :
    token cfg0 1 codeReqBadCode = .err "invalid_code" ∧
    token cfg0 1 codeReqWrongClient = .err "invalid_client" ∧
    (∃ b : TokenSuccess, token cfg0 1 codeReqOk = .ok b) :=
  ⟨((c5_authcode_failure_taxonomy cfg0 1 codeReqBadCode rfl).1 rfl).1,
   ((c5_authcode_failure_taxonomy cfg0 1 codeReqWrongClient rfl).2.1
      { clientId := some "upfirst", redirectUri := some "http://localhost:8081/process" }
      rfl (by decide)).1,
   (c5_authcode_failure_taxonomy cfg0 1 codeReqOk rfl).2.2
      { clientId := some "upfirst", redirectUri := some "http://localhost:8081/process" }
      rfl rfl rfl⟩

/-- Claim C6: a fully matching `authorization_code` exchange returns 200 with
`token_type` "bearer", `expires_in` 3600, and an access token and refresh
token that each verify under the signing secret. -/
theorem c6_authcode_success (cfg : Config) (now : Nat) (req : TokenReq) (p : Claims)
    (hg : req.grant_type = some "authorization_code")
    (hv : jwtVerify cfg.secret req.code now = some p)
    (hc : p.clientId = req.client_id) (hr : p.redirectUri = req.redirect_uri) :
    token cfg now req =
      .ok { access_token := generateAccessToken cfg.secret req.client_id now
            token_type := "bearer"
            expires_in := 3600
            refresh_token := generateRefreshToken cfg.secret req.client_id now } ∧
    (token cfg now req).status = 200 ∧
    jwtVerify cfg.secret
      (.wellFormed (generateAccessToken cfg.secret req.client_id now)) now =
      some { clientId := req.client_id, redirectUri := none } ∧
    jwtVerify cfg.secret
      (.wellFormed (generateRefreshToken cfg.secret req.client_id now)) now =
      some { clientId := req.client_id, redirectUri := none } := by
  have hok : token cfg now req =
      .ok { access_token := generateAccessToken cfg.secret req.client_id now
            token_type := "bearer"
            expires_in := 3600
            refresh_token := generateRefreshToken cfg.secret req.client_id now } := by
    rw [token_authcode_eq cfg now req hg, hv]
    simp only []
    rw [if_neg (by rw [hc, hr]; simp)]
  refine ⟨hok, by rw [hok]; rfl, ?_, ?_⟩
  · have hlt : now < now + ACCESS_TOKEN_EXPIRY_SECONDS := by
      simp [ACCESS_TOKEN_EXPIRY_SECONDS]
    simp [jwtVerify, generateAccessToken, signJwt, hmacTag, hlt]
  · have hlt : now < now + REFRESH_TOKEN_EXPIRY_SECONDS := by
      simp [REFRESH_TOKEN_EXPIRY_SECONDS]
    simp [jwtVerify, generateRefreshToken, signJwt, hmacTag, hlt]

/-- Witness for C6 at a concrete matching exchange. -/
theorem c6_authcode_success_witness :
    token cfg0 1 codeReqOk
      = .ok { access_token := generateAccessToken cfg0.secret (some "upfirst") 1
              token_type := "bearer"
              expires_in := 3600
              refresh_token := generateRefreshToken cfg0.secret (some "upfirst") 1 } :=
  (c6_authcode_success cfg0 1 codeReqOk
    { clientId := some "upfirst", redirectUri := some "http://localhost:8081/process" }
    rfl rfl rfl rfl).1

/-- Claim C7: any grant type other than `authorization_code` and
`refresh_token`, including a missing one, is rejected with
`unsupported_grant_type` (status 400) and no token is issued. -/
theorem c7_unsupported_grant (cfg : Config) (now : Nat) (req : TokenReq)
    (h1 : req.grant_type ≠ some "authorization_code")
    (h2 : req.grant_type ≠ some "refresh_token") :
    token cfg now req = .err "unsupported_grant_type" ∧
    (token cfg now req).status = 400 ∧
    ∀ b : TokenSuccess, token cfg now req ≠ .ok b := by
  have ht : token cfg now req = .err "unsupported_grant_type" := by
    unfold token
    rw [if_neg h1, if_neg h2]
  exact ⟨ht, by rw [ht]; rfl, fun b hb => by rw [ht] at hb; exact TokenRes.noConfusion hb⟩

/-- Witness for C7: an unsupported grant type string, and a request with no
grant type at all, are both rejected. -/
theorem c7_unsupported_grant_witness :
    token cfg0 0
      { grant_type := some "unsupported_grant_type", code := .malformed "SOME_CODE"
        client_id := some "upfirst", redirect_uri := some "http://localhost:8081/process"
        refresh_token := .absent }
      = .err "unsupported_grant_type" ∧
    token cfg0 0
      { grant_type := none, code := .absent
        client_id := some "upfirst", redirect_uri := none
        refresh_token := .absent }
      = .err "unsupported_grant_type" :=
  ⟨(c7_unsupported_grant cfg0 0 _ (by decide) (by decide)).1,
   (c7_unsupported_grant cfg0 0 _ (by decide) (by decide)).1⟩

/-- A refresh token minted at time 0 for the configured client `upfirst`. -/
def rtUpfirst : Jwt := generateRefreshToken cfg0.secret (some "upfirst") 0

/-- A refresh grant presenting `rtUpfirst` under a different `client_id`,
with no `redirect_uri` field in the body. -/
def refreshReqMismatch : TokenReq :=
  { grant_type := some "refresh_token", code := .absent
    client_id := some "attacker", redirect_uri := none
    refresh_token := .wellFormed rtUpfirst }

/-- A refresh grant presenting `rtUpfirst` under a different `client_id`,
with a `redirect_uri` string in the body. -/
def refreshReqBothMismatch : TokenReq :=
  { grant_type := some "refresh_token", code := .absent
    client_id := some "attacker", redirect_uri := some "http://evil.example/cb"
    refresh_token := .wellFormed rtUpfirst }

/-- Counterexample to claim C1 as stated: the presented refresh token
verifies and embeds `clientId` `upfirst`, the request's `client_id` is
`attacker`, the two differ, yet the handler does not reject with
`invalid_client`: it issues tokens. The source's check is
`payload.clientId !== client_id && payload.redirectUri !== redirect_uri`, and
with `redirect_uri` absent from the body the second conjunct compares
`undefined` with `undefined` and is false. -/
theorem c1_refresh_client_check_counterexample :
    jwtVerify cfg0.secret refreshReqMismatch.refresh_token 10 =
      some { clientId := some "upfirst", redirectUri := none } ∧
    refreshReqMismatch.client_id = some "attacker" ∧
    (some "upfirst" : Option String) ≠ some "attacker" ∧
    token cfg0 10 refreshReqMismatch =
      .ok { access_token := generateAccessToken cfg0.secret (some "attacker") 10
            token_type := "bearer"
            expires_in := 3600
            refresh_token := generateRefreshToken cfg0.secret (some "attacker") 10 } ∧
    token cfg0 10 refreshReqMismatch ≠ .err "invalid_client" :=
  ⟨rfl, rfl, by decide, rfl, by decide⟩

/-- Claim C1 (amended): for a verified refresh token, the handler rejects
with `invalid_client` (400) exactly when both the embedded `clientId`
differs from the request's `client_id` and the embedded `redirectUri`
(absent in refresh tokens this server mints) differs from the request's
`redirect_uri`; when either comparison matches — in particular whenever the
request omits `redirect_uri` — it issues tokens, even on a `clientId`
mismatch. -/
theorem c1_refresh_client_check_amended (cfg : Config) (now : Nat) (req : TokenReq)
    (p : Claims)
    (hg : req.grant_type = some "refresh_token")
    (hv : jwtVerify cfg.secret req.refresh_token now = some p) :
    (p.clientId ≠ req.client_id ∧ p.redirectUri ≠ req.redirect_uri →
      token cfg now req = .err "invalid_client" ∧ (token cfg now req).status = 400) ∧
    (p.clientId = req.client_id ∨ p.redirectUri = req.redirect_uri →
      token cfg now req =
        .ok { access_token := generateAccessToken cfg.secret req.client_id now
              token_type := "bearer"
              expires_in := 3600
              refresh_token := generateRefreshToken cfg.secret req.client_id now }) := by
  refine ⟨fun hne => ?_, fun heq => ?_⟩
  · rw [token_refresh_eq cfg now req hg, hv]
    simp only []
    rw [if_pos hne]
    exact ⟨rfl, rfl⟩
  · rw [token_refresh_eq cfg now req hg, hv]
    simp only []
    rw [if_neg (fun hand => heq.elim hand.1 hand.2)]

/-- Witness for the amended C1: with a body `redirect_uri` present both
comparisons mismatch and the handler rejects; with it absent the handler
issues tokens despite the `clientId` mismatch. -/
theorem c1_refresh_client_check_amended_witness :
    token cfg0 10 refreshReqBothMismatch = .err "invalid_client" ∧
    token cfg0 10 refreshReqMismatch =
      .ok { access_token := generateAccessToken cfg0.secret (some "attacker") 10
            token_type := "bearer"
            expires_in := 3600
            refresh_token := generateRefreshToken cfg0.secret (some "attacker") 10 } :=
  ⟨((c1_refresh_client_check_amended cfg0 10 refreshReqBothMismatch
      { clientId := some "upfirst", redirectUri := none } rfl rfl).1 (by decide)).1,
   (c1_refresh_client_check_amended cfg0 10 refreshReqMismatch
      { clientId := some "upfirst", redirectUri := none } rfl rfl).2 (Or.inr rfl)⟩

/-- The refresh token the first counterexample call returns: minted at
time 5 for `upfirst`. -/
def rt5 : Jwt := generateRefreshToken cfg0.secret (some "upfirst") 5

/-- First refresh call of the C8 counterexample, presenting `rtUpfirst`. -/
def refreshReqA : TokenReq :=
  { grant_type := some "refresh_token", code := .absent
    client_id := some "upfirst", redirect_uri := none
    refresh_token := .wellFormed rtUpfirst }

/-- Second refresh call of the C8 counterexample, presenting the refresh
token `rt5` returned by the first call. -/
def refreshReqB : TokenReq :=
  { grant_type := some "refresh_token", code := .absent
    client_id := some "upfirst", redirect_uri := none
    refresh_token := .wellFormed rt5 }

/-- Counterexample to claim C8 as stated: two successive successful refresh
calls handled within the same second return byte-identical refresh tokens.
The first call at time 5 returns the refresh token `rt5`; the second call,
also at time 5 and presenting `rt5`, returns `rt5` again, so
`tokenB.refresh_token = tokenA.refresh_token`. HS256 signing is
deterministic and the minted payload carries only `clientId`, `iat` and
`exp`, all equal across the two calls; the repository's own test sleeps one
second before asserting rotation. -/
theorem c8_rotation_counterexample :
    refreshOf (token cfg0 5 refreshReqA) = some rt5 ∧
    refreshReqB.refresh_token = .wellFormed rt5 ∧
    refreshOf (token cfg0 5 refreshReqB) = some rt5 :=
  ⟨rfl, rfl, rfl⟩

/-- Claim C8 (amended): rotation holds between any two successful token
responses minted at different timestamps: their refresh tokens differ,
because each is freshly signed with `iat` equal to its handling time. -/
theorem c8_rotation_amended (cfg : Config) (t1 t2 : Nat) (req1 req2 : TokenReq)
    (b1 b2 : TokenSuccess)
    (h1 : token cfg t1 req1 = .ok b1) (h2 : token cfg t2 req2 = .ok b2)
    (hne : t1 ≠ t2) :
    b1.refresh_token ≠ b2.refresh_token := by
  have e1 := tokenOk_refresh cfg t1 req1 b1 h1
  have e2 := tokenOk_refresh cfg t2 req2 b2 h2
  intro he
  apply hne
  have i1 : b1.refresh_token.iat = t1 := by rw [e1]; rfl
  have i2 : b2.refresh_token.iat = t2 := by rw [e2]; rfl
  rw [← i1, ← i2, he]

/-- Witness for the amended C8: refresh calls handled at times 0 and 1
return distinct refresh tokens. -/
theorem c8_rotation_amended_witness :
    generateRefreshToken cfg0.secret (some "upfirst") 0 ≠
      generateRefreshToken cfg0.secret (some "upfirst") 1 :=
  c8_rotation_amended cfg0 0 1 refreshReqA refreshReqA
    { access_token := generateAccessToken cfg0.secret (some "upfirst") 0
      token_type := "bearer"
      expires_in := 3600
      refresh_token := generateRefreshToken cfg0.secret (some "upfirst") 0 }
    { access_token := generateAccessToken cfg0.secret (some "upfirst") 1
      token_type := "bearer"
      expires_in := 3600
      refresh_token := generateRefreshToken cfg0.secret (some "upfirst") 1 }
    rfl rfl (by decide)

/-- Claim C9: token signing is deterministic: with identical secret, claims
and issued-at timestamp, each of the three signing operations (access token,
refresh token, authorization code) returns the identical token, and the
minted token is a function of exactly these inputs. -/
theorem c9_signing_deterministic (s1 s2 : String) (c1 c2 : Option String)
    (r1 r2 : Option String) (n1 n2 : Nat)
    (hs : s1 = s2) (hc : c1 = c2) (hr : r1 = r2) (hn : n1 = n2) :
    generateAccessToken s1 c1 n1 = generateAccessToken s2 c2 n2 ∧
    generateRefreshToken s1 c1 n1 = generateRefreshToken s2 c2 n2 ∧
    signJwt s1 { clientId := c1, redirectUri := r1 } n1 AUTH_CODE_EXPIRY_SECONDS =
      signJwt s2 { clientId := c2, redirectUri := r2 } n2 AUTH_CODE_EXPIRY_SECONDS ∧
    generateAccessToken s1 c1 n1 =
      { claims := { clientId := c1, redirectUri := none }
        iat := n1
        exp := n1 + 3600
        tag := (s1, { clientId := c1, redirectUri := none }, n1, n1 + 3600) } := by
  subst hs; subst hc; subst hr; subst hn
  exact ⟨rfl, rfl, rfl, rfl⟩

/-- Witness for C9 at concrete inputs. -/
theorem c9_signing_deterministic_witness :
    generateAccessToken "my-super-secret-key" (some "upfirst") 42 =
      generateAccessToken "my-super-secret-key" (some "upfirst") 42 :=
  (c9_signing_deterministic "my-super-secret-key" "my-super-secret-key"
    (some "upfirst") (some "upfirst")
    (some "http://localhost:8081/process") (some "http://localhost:8081/process")
    42 42 rfl rfl rfl rfl).1

/-- Claim C10: a successful refresh grant mints its access and refresh
tokens for the request body's `client_id`, not for the `clientId` embedded
in the verified refresh token; so whenever the mismatch check passes with
the two unequal, the minted tokens name a client the presented refresh token
was never issued to. -/
theorem c10_refresh_mints_request_client (cfg : Config) (now : Nat) (req : TokenReq)
    (p : Claims) (b : TokenSuccess)
    (hg : req.grant_type = some "refresh_token")
    (hv : jwtVerify cfg.secret req.refresh_token now = some p)
    (hok : token cfg now req = .ok b) :
    b.access_token.claims.clientId = req.client_id ∧
    b.refresh_token.claims.clientId = req.client_id ∧
    (p.clientId ≠ req.client_id →
      b.access_token.claims.clientId ≠ p.clientId ∧
      b.refresh_token.claims.clientId ≠ p.clientId) := by
  rw [token_refresh_eq cfg now req hg, hv] at hok
  simp only [] at hok
  split_ifs at hok
  simp only [TokenRes.ok.injEq] at hok
  refine ⟨?_, ?_, fun hne => ⟨?_, ?_⟩⟩
  · rw [← hok]; rfl
  · rw [← hok]; rfl
  · rw [← hok]; exact fun he => hne he.symm
  · rw [← hok]; exact fun he => hne he.symm

/-- Witness for C10 at the mismatch scenario: tokens are minted embedding
the request's `attacker` client id, not the token's `upfirst`. -/
theorem c10_refresh_mints_request_client_witness :
    (generateAccessToken cfg0.secret (some "attacker") 10).claims.clientId ≠
      some "upfirst" :=
  ((c10_refresh_mints_request_client cfg0 10 refreshReqMismatch
      { clientId := some "upfirst", redirectUri := none }
      { access_token := generateAccessToken cfg0.secret (some "attacker") 10
        token_type := "bearer"
        expires_in := 3600
        refresh_token := generateRefreshToken cfg0.secret (some "attacker") 10 }
      rfl rfl rfl).2.2 (by decide)).1

end OAuth
